import Mathlib

/-!
Verification of the GTHC_HK tropospheric height-correction model
(`src/GTHC_HK.c`) against its natural-language specification.

The C program is shallowly embedded: coordinates, base delays and the
day-of-year are exact numbers (latitude/longitude/height and delays as
rationals, the day of year as an integer), the floating-point arithmetic
of the correction formula is modelled over the real numbers, and the
C function's observable behaviour — its `int` return code together with
the writes (or absence of writes) to the output array `UserTrop` — is
modelled as a pair of the return code and an optional delay triple.
-/

namespace GTHCHK

open Real

/-- Reference or user station tropospheric delays, mirroring the C arrays
`BaseTrop[3] = [ZHD, ZWD, ZTD]` (millimetres). -/
structure Trop where
  zhd : ℚ
  zwd : ℚ
  ztd : ℚ
  deriving DecidableEq

/-- Station coordinates, mirroring the C arrays
`BaseCoor[3] / UserCoor[3] = [Lat, Lon, Hgt]` (degrees, degrees, metres). -/
structure Coord where
  lat : ℚ
  lon : ℚ
  hgt : ℚ
  deriving DecidableEq

/-- Hong Kong geographical boundaries, from `is_in_hongkong`. -/
def HK_LAT_MIN : ℚ := 22.1

/-- Hong Kong geographical boundaries, from `is_in_hongkong`. -/
def HK_LAT_MAX : ℚ := 22.6

/-- Hong Kong geographical boundaries, from `is_in_hongkong`. -/
def HK_LON_MIN : ℚ := 113.8

/-- Hong Kong geographical boundaries, from `is_in_hongkong`. -/
def HK_LON_MAX : ℚ := 114.5

/-- Embedding of `is_in_hongkong(double lat, double lon)`:
`(lat >= HK_LAT_MIN && lat <= HK_LAT_MAX) && (lon >= HK_LON_MIN && lon <= HK_LON_MAX)`. -/
def is_in_hongkong (lat lon : ℚ) : Bool :=
  (decide (lat ≥ HK_LAT_MIN) && decide (lat ≤ HK_LAT_MAX)) &&
  (decide (lon ≥ HK_LON_MIN) && decide (lon ≤ HK_LON_MAX))

/-- Embedding of `func_sinZTD(const double a[3], double t)`:
`a[0] * cos(2 * M_PI * t) + a[1] * sin(2 * M_PI * t) + a[2]`. -/
noncomputable def func_sinZTD (a : Fin 3 → ℝ) (t : ℝ) : ℝ :=
  a 0 * Real.cos (2 * π * t) + a 1 * Real.sin (2 * π * t) + a 2

/-- Embedding of `func_sinZWD(const double a[5], double t)`:
`a[0]*cos(2πt) + a[1]*cos(4πt) + a[2]*sin(2πt) + a[3]*cos(4πt) + a[4]`,
with the duplicated `cos(4 * M_PI * t)` term kept exactly as in the source. -/
noncomputable def func_sinZWD (a : Fin 5 → ℝ) (t : ℝ) : ℝ :=
  a 0 * Real.cos (2 * π * t) + a 1 * Real.cos (4 * π * t) +
  a 2 * Real.sin (2 * π * t) + a 3 * Real.cos (4 * π * t) + a 4

/-- Model coefficients `A_ZTD[3]` from `GTHC_HK`. -/
noncomputable def A_ZTD : Fin 3 → ℝ :=
  fun i => match i with
  | ⟨0, _⟩ => 336.744129380450
  | ⟨1, _⟩ => 40.0468935232165
  | ⟨2, _⟩ => 7222.97084384999

/-- Model coefficients `A_ZWD[5]` from `GTHC_HK`. -/
noncomputable def A_ZWD : Fin 5 → ℝ :=
  fun i => match i with
  | ⟨0, _⟩ => -16.7865051683731
  | ⟨1, _⟩ => 36218.6610049341
  | ⟨2, _⟩ => -130.895834349628
  | ⟨3, _⟩ => -36297.5776200211
  | ⟨4, _⟩ => 3253.60038161059

/-- The ZTD scale height selected by `GTHC_HK`: the seasonal sinusoid at
`DOY / 365.25` when `YorN` is set, else the annual mean `7228.8`. -/
noncomputable def beta_ZTD_of (DOY : ℤ) (YorN : Bool) : ℝ :=
  if YorN then func_sinZTD A_ZTD ((DOY : ℝ) / 365.25) else 7228.8

/-- The ZWD scale height selected by `GTHC_HK`: the seasonal sinusoid at
`DOY / 365.25` when `YorN` is set, else the annual mean `3254.1`. -/
noncomputable def beta_ZWD_of (DOY : ℤ) (YorN : Bool) : ℝ :=
  if YorN then func_sinZWD A_ZWD ((DOY : ℝ) / 365.25) else 3254.1

/-- The ZHD scale height (constant) from `GTHC_HK`. -/
noncomputable def beta_ZHD : ℝ := 8431.2

/-- Embedding of `int GTHC_HK(BaseTrop, BaseCoor, UserCoor, DOY, YorN, UserTrop)`.
The result pairs the C return code (`0` success, `-1` error) with the
contents of the output array `UserTrop = [ZHD_user, ZWD_user, ZTD_user]`,
`none` when the function returns early without writing it. -/
noncomputable def GTHC_HK (BaseTrop : Trop) (BaseCoor UserCoor : Coord)
    (DOY : ℤ) (YorN : Bool) : ℤ × Option (ℝ × ℝ × ℝ) :=
  if DOY < 1 ∨ DOY > 366 then (-1, none)
  else if ¬ is_in_hongkong BaseCoor.lat BaseCoor.lon ∨
          ¬ is_in_hongkong UserCoor.lat UserCoor.lon then (-1, none)
  else
    (0, some
      ((BaseTrop.zhd : ℝ) /
         Real.exp (-((UserCoor.hgt : ℝ) - (BaseCoor.hgt : ℝ)) / beta_ZHD),
       (BaseTrop.zwd : ℝ) /
         Real.exp (-((UserCoor.hgt : ℝ) - (BaseCoor.hgt : ℝ)) / beta_ZWD_of DOY YorN),
       (BaseTrop.ztd : ℝ) /
         Real.exp (-((UserCoor.hgt : ℝ) - (BaseCoor.hgt : ℝ)) / beta_ZTD_of DOY YorN)))

/-- The two error kinds of the specification's `correct` contract. -/
inductive ErrorKind where
  | invalidDayOfYear : ErrorKind
  | outOfRegion : ErrorKind
  deriving DecidableEq

/-- Modelled from the spec: the CorrectionEngine contract
`correct(base_delay, base_coord, user_coord, day_of_year, use_seasonal) ->
Result<TroposphericDelay, ErrorKind>` — the tagged result type the
specification prescribes in place of the C sentinel return code; the
success payload follows spec steps 3-7, which coincide with the C
computation. -/
noncomputable def correct (base_delay : Trop) (base_coord user_coord : Coord)
    (day_of_year : ℤ) (use_seasonal : Bool) : Except ErrorKind (ℝ × ℝ × ℝ) :=
  if day_of_year < 1 ∨ day_of_year > 366 then .error .invalidDayOfYear
  else if ¬ is_in_hongkong base_coord.lat base_coord.lon ∨
          ¬ is_in_hongkong user_coord.lat user_coord.lon then .error .outOfRegion
  else
    .ok ((base_delay.zhd : ℝ) /
           Real.exp (-((user_coord.hgt : ℝ) - (base_coord.hgt : ℝ)) / beta_ZHD),
         (base_delay.zwd : ℝ) /
           Real.exp (-((user_coord.hgt : ℝ) - (base_coord.hgt : ℝ)) /
             beta_ZWD_of day_of_year use_seasonal),
         (base_delay.ztd : ℝ) /
           Real.exp (-((user_coord.hgt : ℝ) - (base_coord.hgt : ℝ)) /
             beta_ZTD_of day_of_year use_seasonal))

/-- The ZTD seasonal sinusoid is strictly positive for every real argument:
the constant coefficient dominates the bounded oscillating part. -/
lemma func_sinZTD_A_pos (t : ℝ) : 0 < func_sinZTD A_ZTD t := by
  have h1 := Real.neg_one_le_cos (2 * π * t)
  have h2 := Real.neg_one_le_sin (2 * π * t)
  have e0 : A_ZTD 0 = 336.744129380450 := rfl
  have e1 : A_ZTD 1 = 40.0468935232165 := rfl
  have e2 : A_ZTD 2 = 7222.97084384999 := rfl
  simp only [func_sinZTD, e0, e1, e2]
  nlinarith [h1, h2]

/-- The ZWD seasonal sinusoid is strictly positive for every real argument:
the constant coefficient dominates the bounded oscillating part (the two
large same-frequency cosine terms nearly cancel). -/
lemma func_sinZWD_A_pos (t : ℝ) : 0 < func_sinZWD A_ZWD t := by
  have h1 := Real.neg_one_le_cos (2 * π * t)
  have h2 := Real.neg_one_le_sin (2 * π * t)
  have h3 := Real.cos_le_one (2 * π * t)
  have h4 := Real.neg_one_le_cos (4 * π * t)
  have h5 := Real.cos_le_one (4 * π * t)
  have h6 := Real.sin_le_one (2 * π * t)
  have e0 : A_ZWD 0 = -16.7865051683731 := rfl
  have e1 : A_ZWD 1 = 36218.6610049341 := rfl
  have e2 : A_ZWD 2 = -130.895834349628 := rfl
  have e3 : A_ZWD 3 = -36297.5776200211 := rfl
  have e4 : A_ZWD 4 = 3253.60038161059 := rfl
  simp only [func_sinZWD, e0, e1, e2, e3, e4]
  nlinarith [h1, h2, h3, h4, h5, h6]

/-- Both scale heights selected by `GTHC_HK` are strictly positive, for any
day of year and either setting of the seasonal flag. -/
lemma beta_of_pos (DOY : ℤ) (YorN : Bool) :
    0 < beta_ZTD_of DOY YorN ∧ 0 < beta_ZWD_of DOY YorN := by
  constructor
  · unfold beta_ZTD_of
    cases YorN with
    | false => norm_num
    | true => simpa using func_sinZTD_A_pos ((DOY : ℝ) / 365.25)
  · unfold beta_ZWD_of
    cases YorN with
    | false => norm_num
    | true => simpa using func_sinZWD_A_pos ((DOY : ℝ) / 365.25)

/-- The exponential height correction `V / exp(-h / β)` is strictly
increasing in the height difference `h` when `V > 0` and `β > 0`. -/
lemma correction_strictMono (V : ℝ) (beta : ℝ) (hV : 0 < V) (hb : 0 < beta)
    {h1 h2 : ℝ} (hlt : h1 < h2) :
    V / Real.exp (-h1 / beta) < V / Real.exp (-h2 / beta) := by
  have hexp : Real.exp (-h2 / beta) < Real.exp (-h1 / beta) := by
    apply Real.exp_lt_exp.mpr
    have : -h2 < -h1 := by linarith
    exact div_lt_div_of_pos_right this hb
  exact div_lt_div_of_pos_left hV (Real.exp_pos _) hexp

/-- C2: `is_in_hongkong` returns true iff the latitude lies in
[22.1, 22.6] and the longitude in [113.8, 114.5], all four bounds
inclusive; in particular it is true exactly at the boundary values. -/
theorem is_in_hongkong_iff (lat lon : ℚ) :
    is_in_hongkong lat lon = true ↔
      ((22.1 ≤ lat ∧ lat ≤ 22.6) ∧ (113.8 ≤ lon ∧ lon ≤ 114.5)) := by
  simp [is_in_hongkong, HK_LAT_MIN, HK_LAT_MAX, HK_LON_MIN, HK_LON_MAX,
    Bool.and_eq_true, decide_eq_true_eq, ge_iff_le, and_assoc]

/-- When the day of year and both coordinates pass validation, `GTHC_HK`
returns `0` and writes the three exponentially corrected delays. -/
lemma GTHC_HK_success (bt : Trop) (bc uc : Coord) (doy : ℤ) (yorn : Bool)
    (hd1 : 1 ≤ doy) (hd2 : doy ≤ 366)
    (hb : is_in_hongkong bc.lat bc.lon = true)
    (hu : is_in_hongkong uc.lat uc.lon = true) :
    GTHC_HK bt bc uc doy yorn =
      (0, some
        ((bt.zhd : ℝ) / Real.exp (-((uc.hgt : ℝ) - (bc.hgt : ℝ)) / beta_ZHD),
         (bt.zwd : ℝ) /
           Real.exp (-((uc.hgt : ℝ) - (bc.hgt : ℝ)) / beta_ZWD_of doy yorn),
         (bt.ztd : ℝ) /
           Real.exp (-((uc.hgt : ℝ) - (bc.hgt : ℝ)) / beta_ZTD_of doy yorn))) := by
  unfold GTHC_HK
  rw [if_neg (by omega), if_neg (by simp [hb, hu])]

/-- C1: for a day of year in [1, 366] and both stations inside the Hong
Kong box, `GTHC_HK` succeeds and each component satisfies
`V_user = V_base / exp(-(Hgt_user - Hgt_base) / beta)`, with
`beta_ZHD = 8431.2` always, and `beta_ZTD = 7228.8`, `beta_ZWD = 3254.1`
when the seasonal flag is off. -/
theorem GTHC_HK_exponential_formula (bt : Trop) (bc uc : Coord) (doy : ℤ)
    (yorn : Bool) (hd1 : 1 ≤ doy) (hd2 : doy ≤ 366)
    (hb : is_in_hongkong bc.lat bc.lon = true)
    (hu : is_in_hongkong uc.lat uc.lon = true) :
    GTHC_HK bt bc uc doy yorn =
      (0, some
        ((bt.zhd : ℝ) / Real.exp (-((uc.hgt : ℝ) - (bc.hgt : ℝ)) / 8431.2),
         (bt.zwd : ℝ) /
           Real.exp (-((uc.hgt : ℝ) - (bc.hgt : ℝ)) / beta_ZWD_of doy yorn),
         (bt.ztd : ℝ) /
           Real.exp (-((uc.hgt : ℝ) - (bc.hgt : ℝ)) / beta_ZTD_of doy yorn))) ∧
    GTHC_HK bt bc uc doy false =
      (0, some
        ((bt.zhd : ℝ) / Real.exp (-((uc.hgt : ℝ) - (bc.hgt : ℝ)) / 8431.2),
         (bt.zwd : ℝ) / Real.exp (-((uc.hgt : ℝ) - (bc.hgt : ℝ)) / 3254.1),
         (bt.ztd : ℝ) / Real.exp (-((uc.hgt : ℝ) - (bc.hgt : ℝ)) / 7228.8))) := by
  constructor
  · rw [GTHC_HK_success bt bc uc doy yorn hd1 hd2 hb hu]
    rfl
  · rw [GTHC_HK_success bt bc uc doy false hd1 hd2 hb hu]
    rfl

/-- Concrete instance of `GTHC_HK_exponential_formula` at the demo inputs. -/
theorem GTHC_HK_exponential_formula_witness :
    (1 ≤ (150 : ℤ) ∧ (150 : ℤ) ≤ 366 ∧
      is_in_hongkong 22.3 114.2 = true ∧ is_in_hongkong 22.35 114.15 = true) ∧
    (GTHC_HK ⟨2200, 150, 2350⟩ ⟨22.3, 114.2, 50⟩ ⟨22.35, 114.15, 200⟩ 150 true =
      (0, some
        (((2200 : ℚ) : ℝ) / Real.exp (-((200 : ℚ) - (50 : ℚ) : ℝ) / 8431.2),
         ((150 : ℚ) : ℝ) /
           Real.exp (-((200 : ℚ) - (50 : ℚ) : ℝ) / beta_ZWD_of 150 true),
         ((2350 : ℚ) : ℝ) /
           Real.exp (-((200 : ℚ) - (50 : ℚ) : ℝ) / beta_ZTD_of 150 true))) ∧
     GTHC_HK ⟨2200, 150, 2350⟩ ⟨22.3, 114.2, 50⟩ ⟨22.35, 114.15, 200⟩ 150 false =
      (0, some
        (((2200 : ℚ) : ℝ) / Real.exp (-((200 : ℚ) - (50 : ℚ) : ℝ) / 8431.2),
         ((150 : ℚ) : ℝ) / Real.exp (-((200 : ℚ) - (50 : ℚ) : ℝ) / 3254.1),
         ((2350 : ℚ) : ℝ) / Real.exp (-((200 : ℚ) - (50 : ℚ) : ℝ) / 7228.8)))) :=
  ⟨⟨by norm_num, by norm_num,
    by norm_num [is_in_hongkong, HK_LAT_MIN, HK_LAT_MAX, HK_LON_MIN, HK_LON_MAX],
    by norm_num [is_in_hongkong, HK_LAT_MIN, HK_LAT_MAX, HK_LON_MIN, HK_LON_MAX]⟩,
   GTHC_HK_exponential_formula ⟨2200, 150, 2350⟩ ⟨22.3, 114.2, 50⟩
     ⟨22.35, 114.15, 200⟩ 150 true (by norm_num) (by norm_num)
     (by norm_num [is_in_hongkong, HK_LAT_MIN, HK_LAT_MAX, HK_LON_MIN, HK_LON_MAX])
     (by norm_num [is_in_hongkong, HK_LAT_MIN, HK_LAT_MAX, HK_LON_MIN, HK_LON_MAX])⟩

/-- C5: when the user and base heights coincide, every valid call of
`GTHC_HK` returns exactly the base delays, for either value of the
seasonal flag (zero height difference makes every scale factor one). -/
theorem GTHC_HK_height_invariance (bt : Trop) (bc uc : Coord) (doy : ℤ)
    (yorn : Bool) (hd1 : 1 ≤ doy) (hd2 : doy ≤ 366)
    (hb : is_in_hongkong bc.lat bc.lon = true)
    (hu : is_in_hongkong uc.lat uc.lon = true)
    (hh : uc.hgt = bc.hgt) :
    GTHC_HK bt bc uc doy yorn =
      (0, some ((bt.zhd : ℝ), (bt.zwd : ℝ), (bt.ztd : ℝ))) := by
  rw [GTHC_HK_success bt bc uc doy yorn hd1 hd2 hb hu, hh]
  norm_num

/-- Concrete instance of `GTHC_HK_height_invariance` with equal heights,
checked for both settings of the seasonal flag. -/
theorem GTHC_HK_height_invariance_witness :
    (1 ≤ (150 : ℤ) ∧ (150 : ℤ) ≤ 366 ∧
      is_in_hongkong 22.3 114.2 = true ∧ is_in_hongkong 22.35 114.15 = true ∧
      ((50 : ℚ) = 50)) ∧
    GTHC_HK ⟨2200, 150, 2350⟩ ⟨22.3, 114.2, 50⟩ ⟨22.35, 114.15, 50⟩ 150 true =
      (0, some (((2200 : ℚ) : ℝ), ((150 : ℚ) : ℝ), ((2350 : ℚ) : ℝ))) ∧
    GTHC_HK ⟨2200, 150, 2350⟩ ⟨22.3, 114.2, 50⟩ ⟨22.35, 114.15, 50⟩ 150 false =
      (0, some (((2200 : ℚ) : ℝ), ((150 : ℚ) : ℝ), ((2350 : ℚ) : ℝ))) :=
  ⟨⟨by norm_num, by norm_num,
    by norm_num [is_in_hongkong, HK_LAT_MIN, HK_LAT_MAX, HK_LON_MIN, HK_LON_MAX],
    by norm_num [is_in_hongkong, HK_LAT_MIN, HK_LAT_MAX, HK_LON_MIN, HK_LON_MAX],
    rfl⟩,
   GTHC_HK_height_invariance ⟨2200, 150, 2350⟩ ⟨22.3, 114.2, 50⟩
     ⟨22.35, 114.15, 50⟩ 150 true (by norm_num) (by norm_num)
     (by norm_num [is_in_hongkong, HK_LAT_MIN, HK_LAT_MAX, HK_LON_MIN, HK_LON_MAX])
     (by norm_num [is_in_hongkong, HK_LAT_MIN, HK_LAT_MAX, HK_LON_MIN, HK_LON_MAX])
     rfl,
   GTHC_HK_height_invariance ⟨2200, 150, 2350⟩ ⟨22.3, 114.2, 50⟩
     ⟨22.35, 114.15, 50⟩ 150 false (by norm_num) (by norm_num)
     (by norm_num [is_in_hongkong, HK_LAT_MIN, HK_LAT_MAX, HK_LON_MIN, HK_LON_MAX])
     (by norm_num [is_in_hongkong, HK_LAT_MIN, HK_LAT_MAX, HK_LON_MIN, HK_LON_MAX])
     rfl⟩

/-- C7: with the seasonal flag on, the ZTD and ZWD scale heights used by
`GTHC_HK` are the sinusoids evaluated at `t = DOY / 365.25`, with the
literal coefficient values of `A_ZTD` and `A_ZWD` and the duplicated
`cos(4*pi*t)` term of the ZWD formula exactly as in the source. -/
theorem GTHC_HK_seasonal_formula (bt : Trop) (bc uc : Coord) (doy : ℤ)
    (hd1 : 1 ≤ doy) (hd2 : doy ≤ 366)
    (hb : is_in_hongkong bc.lat bc.lon = true)
    (hu : is_in_hongkong uc.lat uc.lon = true) :
    GTHC_HK bt bc uc doy true =
      (0, some
        ((bt.zhd : ℝ) / Real.exp (-((uc.hgt : ℝ) - (bc.hgt : ℝ)) / 8431.2),
         (bt.zwd : ℝ) / Real.exp (-((uc.hgt : ℝ) - (bc.hgt : ℝ)) /
           (-16.7865051683731 * Real.cos (2 * π * ((doy : ℝ) / 365.25)) +
            36218.6610049341 * Real.cos (4 * π * ((doy : ℝ) / 365.25)) +
            -130.895834349628 * Real.sin (2 * π * ((doy : ℝ) / 365.25)) +
            -36297.5776200211 * Real.cos (4 * π * ((doy : ℝ) / 365.25)) +
            3253.60038161059)),
         (bt.ztd : ℝ) / Real.exp (-((uc.hgt : ℝ) - (bc.hgt : ℝ)) /
           (336.744129380450 * Real.cos (2 * π * ((doy : ℝ) / 365.25)) +
            40.0468935232165 * Real.sin (2 * π * ((doy : ℝ) / 365.25)) +
            7222.97084384999)))) := by
  rw [GTHC_HK_success bt bc uc doy true hd1 hd2 hb hu]
  rfl

/-- Concrete instance of `GTHC_HK_seasonal_formula` at the demo inputs. -/
theorem GTHC_HK_seasonal_formula_witness :
    (1 ≤ (150 : ℤ) ∧ (150 : ℤ) ≤ 366 ∧
      is_in_hongkong 22.3 114.2 = true ∧ is_in_hongkong 22.35 114.15 = true) ∧
    GTHC_HK ⟨2200, 150, 2350⟩ ⟨22.3, 114.2, 50⟩ ⟨22.35, 114.15, 200⟩ 150 true =
      (0, some
        (((2200 : ℚ) : ℝ) / Real.exp (-((200 : ℚ) - (50 : ℚ) : ℝ) / 8431.2),
         ((150 : ℚ) : ℝ) / Real.exp (-((200 : ℚ) - (50 : ℚ) : ℝ) /
           (-16.7865051683731 * Real.cos (2 * π * (((150 : ℤ) : ℝ) / 365.25)) +
            36218.6610049341 * Real.cos (4 * π * (((150 : ℤ) : ℝ) / 365.25)) +
            -130.895834349628 * Real.sin (2 * π * (((150 : ℤ) : ℝ) / 365.25)) +
            -36297.5776200211 * Real.cos (4 * π * (((150 : ℤ) : ℝ) / 365.25)) +
            3253.60038161059)),
         ((2350 : ℚ) : ℝ) / Real.exp (-((200 : ℚ) - (50 : ℚ) : ℝ) /
           (336.744129380450 * Real.cos (2 * π * (((150 : ℤ) : ℝ) / 365.25)) +
            40.0468935232165 * Real.sin (2 * π * (((150 : ℤ) : ℝ) / 365.25)) +
            7222.97084384999)))) :=
  ⟨⟨by norm_num, by norm_num,
    by norm_num [is_in_hongkong, HK_LAT_MIN, HK_LAT_MAX, HK_LON_MIN, HK_LON_MAX],
    by norm_num [is_in_hongkong, HK_LAT_MIN, HK_LAT_MAX, HK_LON_MIN, HK_LON_MAX]⟩,
   GTHC_HK_seasonal_formula ⟨2200, 150, 2350⟩ ⟨22.3, 114.2, 50⟩
     ⟨22.35, 114.15, 200⟩ 150 (by norm_num) (by norm_num)
     (by norm_num [is_in_hongkong, HK_LAT_MIN, HK_LAT_MAX, HK_LON_MIN, HK_LON_MAX])
     (by norm_num [is_in_hongkong, HK_LAT_MIN, HK_LAT_MAX, HK_LON_MIN, HK_LON_MAX])⟩

/-- C3 counterexample: the C function signals both error kinds with the
identical observable result `(-1, none)` — an invalid day of year and an
out-of-region base station are indistinguishable from the return value,
so the code does not return a tagged sum. -/
theorem GTHC_HK_same_sentinel_for_both_errors :
    GTHC_HK ⟨2200, 150, 2350⟩ ⟨22.3, 114.2, 50⟩ ⟨22.35, 114.15, 200⟩ 0 true =
      (-1, none) ∧
    GTHC_HK ⟨2200, 150, 2350⟩ ⟨0, 0, 0⟩ ⟨22.35, 114.15, 200⟩ 150 true =
      (-1, none) := by
  constructor <;>
    norm_num [GTHC_HK, is_in_hongkong, HK_LAT_MIN, HK_LAT_MAX, HK_LON_MIN, HK_LON_MAX]

/-- C3 amended: the C function returns the single sentinel `-1` for both
error kinds; its observable behaviour is exactly the spec's tagged result
`correct` collapsed through that sentinel — errors map to `(-1, none)` and
success to `(0, some v)` with the same payload. -/
theorem GTHC_HK_sentinel_of_correct (bt : Trop) (bc uc : Coord) (doy : ℤ)
    (yorn : Bool) :
    GTHC_HK bt bc uc doy yorn =
      match correct bt bc uc doy yorn with
      | .error _ => (-1, none)
      | .ok v => (0, some v) := by
  unfold GTHC_HK correct
  by_cases hd : doy < 1 ∨ doy > 366
  · rw [if_pos hd, if_pos hd]
  · rw [if_neg hd, if_neg hd]
    by_cases hr : ¬ is_in_hongkong bc.lat bc.lon ∨ ¬ is_in_hongkong uc.lat uc.lon
    · rw [if_pos hr, if_pos hr]
    · rw [if_neg hr, if_neg hr]

/-- C4: `correct` fails with `InvalidDayOfYear` exactly when the day of
year is outside [1, 366], whatever the coordinates are — the day-of-year
check precedes coordinate validation. -/
theorem correct_invalidDayOfYear_iff (bt : Trop) (bc uc : Coord) (doy : ℤ)
    (yorn : Bool) :
    correct bt bc uc doy yorn = .error .invalidDayOfYear ↔
      (doy < 1 ∨ doy > 366) := by
  unfold correct
  by_cases hd : doy < 1 ∨ doy > 366
  · simp [hd]
  · rw [if_neg hd]
    by_cases hr : ¬ is_in_hongkong bc.lat bc.lon ∨ ¬ is_in_hongkong uc.lat uc.lon
    · rw [if_pos hr]
      exact iff_of_false (fun h => ErrorKind.noConfusion (Except.error.inj h)) hd
    · rw [if_neg hr]
      exact iff_of_false (fun h => Except.noConfusion h) hd

/-- C8 counterexample: with `base_coord = (0, 0, 0)` but `day_of_year = 0`,
`correct` fails with `InvalidDayOfYear`, not `OutOfRegion` — the
day-of-year check comes first, so the failure kind does depend on the
day of year. -/
theorem correct_base_origin_bad_doy :
    correct ⟨2200, 150, 2350⟩ ⟨0, 0, 0⟩ ⟨22.35, 114.15, 200⟩ 0 true =
      .error .invalidDayOfYear ∧
    correct ⟨2200, 150, 2350⟩ ⟨0, 0, 0⟩ ⟨22.35, 114.15, 200⟩ 0 true ≠
      .error .outOfRegion := by
  constructor
  · norm_num [correct]
  · norm_num [correct]
    exact fun h => ErrorKind.noConfusion h

/-- C8 amended: for a day of year inside [1, 366], `correct` fails with
`OutOfRegion` exactly when the base or the user station lies outside the
Hong Kong bounding box — in particular for `base_coord = (0, 0, 0)`,
whatever the base delays, user coordinate and seasonal flag are. -/
theorem correct_outOfRegion_iff (bt : Trop) (bc uc : Coord) (doy : ℤ)
    (yorn : Bool) (hd1 : 1 ≤ doy) (hd2 : doy ≤ 366) :
    correct bt bc uc doy yorn = .error .outOfRegion ↔
      (is_in_hongkong bc.lat bc.lon = false ∨
       is_in_hongkong uc.lat uc.lon = false) := by
  unfold correct
  rw [if_neg (by omega)]
  by_cases hr : ¬ is_in_hongkong bc.lat bc.lon ∨ ¬ is_in_hongkong uc.lat uc.lon
  · rw [if_pos hr]
    simpa using hr
  · rw [if_neg hr]
    simpa using hr

/-- Concrete instance of `correct_outOfRegion_iff`: at a valid day of
year, the base coordinate `(0, 0, 0)` produces `OutOfRegion`. -/
theorem correct_outOfRegion_iff_witness :
    (1 ≤ (150 : ℤ) ∧ (150 : ℤ) ≤ 366) ∧
    correct ⟨2200, 150, 2350⟩ ⟨0, 0, 0⟩ ⟨22.35, 114.15, 200⟩ 150 true =
      .error .outOfRegion :=
  ⟨⟨by norm_num, by norm_num⟩,
   (correct_outOfRegion_iff ⟨2200, 150, 2350⟩ ⟨0, 0, 0⟩ ⟨22.35, 114.15, 200⟩
       150 true (by norm_num) (by norm_num)).mpr
     (Or.inl (by norm_num [is_in_hongkong, HK_LAT_MIN, HK_LAT_MAX, HK_LON_MIN, HK_LON_MAX]))⟩

/-- C9: `GTHC_HK` is atomic — every call either fails returning `-1` with
the output array untouched, or succeeds returning `0` with the full delay
triple written; no partial result is ever produced. -/
theorem GTHC_HK_no_partial_result (bt : Trop) (bc uc : Coord) (doy : ℤ)
    (yorn : Bool) :
    GTHC_HK bt bc uc doy yorn = (-1, none) ∨
    ∃ v : ℝ × ℝ × ℝ, GTHC_HK bt bc uc doy yorn = (0, some v) := by
  unfold GTHC_HK
  by_cases hd : doy < 1 ∨ doy > 366
  · left
    rw [if_pos hd]
  · rw [if_neg hd]
    by_cases hr : ¬ is_in_hongkong bc.lat bc.lon ∨ ¬ is_in_hongkong uc.lat uc.lon
    · left
      rw [if_pos hr]
    · right
      rw [if_neg hr]
      exact ⟨_, rfl⟩

/-- C6 counterexample: with base delays `(0, 0, 0)` — a valid input, since
the code never checks the delays — raising the user height from 50 m to
200 m leaves all three outputs at exactly `0`, so the outputs are not
strictly increasing in the user height for every valid input. -/
theorem GTHC_HK_not_strictMono_at_zero_delays :
    GTHC_HK ⟨0, 0, 0⟩ ⟨22.3, 114.2, 50⟩ ⟨22.35, 114.15, 50⟩ 150 false =
      (0, some (0, 0, 0)) ∧
    GTHC_HK ⟨0, 0, 0⟩ ⟨22.3, 114.2, 50⟩ ⟨22.35, 114.15, 200⟩ 150 false =
      (0, some (0, 0, 0)) := by
  constructor <;>
    norm_num [GTHC_HK, is_in_hongkong, HK_LAT_MIN, HK_LAT_MAX, HK_LON_MIN, HK_LON_MAX]

/-- C6 amended: for valid inputs differing only in the user height and
whose three base delays are strictly positive, the strictly larger user
height yields a strictly larger output in every component (the scale
heights are positive, so the exponential factor is increasing). -/
theorem GTHC_HK_strictMono_user_height (bt : Trop) (bc : Coord)
    (lat lon h1 h2 : ℚ) (doy : ℤ) (yorn : Bool)
    (hd1 : 1 ≤ doy) (hd2 : doy ≤ 366)
    (hb : is_in_hongkong bc.lat bc.lon = true)
    (hu : is_in_hongkong lat lon = true)
    (hzhd : 0 < bt.zhd) (hzwd : 0 < bt.zwd) (hztd : 0 < bt.ztd)
    (hlt : h1 < h2) :
    ∃ v w : ℝ × ℝ × ℝ,
      GTHC_HK bt bc ⟨lat, lon, h1⟩ doy yorn = (0, some v) ∧
      GTHC_HK bt bc ⟨lat, lon, h2⟩ doy yorn = (0, some w) ∧
      v.1 < w.1 ∧ v.2.1 < w.2.1 ∧ v.2.2 < w.2.2 := by
  refine ⟨_, _,
    GTHC_HK_success bt bc ⟨lat, lon, h1⟩ doy yorn hd1 hd2 hb hu,
    GTHC_HK_success bt bc ⟨lat, lon, h2⟩ doy yorn hd1 hd2 hb hu, ?_, ?_, ?_⟩
  · exact correction_strictMono _ _ (by exact_mod_cast hzhd)
      (by norm_num [beta_ZHD]) (sub_lt_sub_right (by exact_mod_cast hlt) _)
  · exact correction_strictMono _ _ (by exact_mod_cast hzwd)
      (beta_of_pos doy yorn).2 (sub_lt_sub_right (by exact_mod_cast hlt) _)
  · exact correction_strictMono _ _ (by exact_mod_cast hztd)
      (beta_of_pos doy yorn).1 (sub_lt_sub_right (by exact_mod_cast hlt) _)

/-- Concrete instance of `GTHC_HK_strictMono_user_height` with positive
base delays and a 150 m height increase. -/
theorem GTHC_HK_strictMono_user_height_witness :
    (1 ≤ (150 : ℤ) ∧ (150 : ℤ) ≤ 366 ∧
      is_in_hongkong 22.3 114.2 = true ∧ is_in_hongkong 22.35 114.15 = true ∧
      0 < (2200 : ℚ) ∧ 0 < (150 : ℚ) ∧ 0 < (2350 : ℚ) ∧ (50 : ℚ) < 200) ∧
    ∃ v w : ℝ × ℝ × ℝ,
      GTHC_HK ⟨2200, 150, 2350⟩ ⟨22.3, 114.2, 50⟩ ⟨22.35, 114.15, 50⟩ 150 true =
        (0, some v) ∧
      GTHC_HK ⟨2200, 150, 2350⟩ ⟨22.3, 114.2, 50⟩ ⟨22.35, 114.15, 200⟩ 150 true =
        (0, some w) ∧
      v.1 < w.1 ∧ v.2.1 < w.2.1 ∧ v.2.2 < w.2.2 :=
  ⟨⟨by norm_num, by norm_num,
    by norm_num [is_in_hongkong, HK_LAT_MIN, HK_LAT_MAX, HK_LON_MIN, HK_LON_MAX],
    by norm_num [is_in_hongkong, HK_LAT_MIN, HK_LAT_MAX, HK_LON_MIN, HK_LON_MAX],
    by norm_num, by norm_num, by norm_num, by norm_num⟩,
   GTHC_HK_strictMono_user_height ⟨2200, 150, 2350⟩ ⟨22.3, 114.2, 50⟩
     22.35 114.15 50 200 150 true (by norm_num) (by norm_num)
     (by norm_num [is_in_hongkong, HK_LAT_MIN, HK_LAT_MAX, HK_LON_MIN, HK_LON_MAX])
     (by norm_num [is_in_hongkong, HK_LAT_MIN, HK_LAT_MAX, HK_LON_MIN, HK_LON_MAX])
     (by norm_num) (by norm_num) (by norm_num) (by norm_num)⟩

/-- C10: both seasonal sinusoids are strictly positive at every real
argument, and hence the scale heights used by the correction are strictly
positive for every day of year in [1, 366] and either seasonal flag. -/
theorem scale_heights_positive :
    (∀ t : ℝ, 0 < func_sinZTD A_ZTD t ∧ 0 < func_sinZWD A_ZWD t) ∧
    ∀ (doy : ℤ) (yorn : Bool), 1 ≤ doy → doy ≤ 366 →
      0 < beta_ZTD_of doy yorn ∧ 0 < beta_ZWD_of doy yorn :=
  ⟨fun t => ⟨func_sinZTD_A_pos t, func_sinZWD_A_pos t⟩,
   fun doy yorn _ _ => beta_of_pos doy yorn⟩

/-- Concrete instance of `scale_heights_positive` at `t = 1/2` and
`DOY = 150` with the seasonal flag on. -/
theorem scale_heights_positive_witness :
    (0 < func_sinZTD A_ZTD (1 / 2) ∧ 0 < func_sinZWD A_ZWD (1 / 2)) ∧
    (1 ≤ (150 : ℤ) ∧ (150 : ℤ) ≤ 366) ∧
    (0 < beta_ZTD_of 150 true ∧ 0 < beta_ZWD_of 150 true) :=
  ⟨scale_heights_positive.1 (1 / 2), ⟨by norm_num, by norm_num⟩,
   scale_heights_positive.2 150 true (by norm_num) (by norm_num)⟩

end GTHCHK
